import Mathlib

/-!
Verification of the CCID/ICCD message-handling core of python-usb-f-ccid.

The development shallowly embeds the parts of `f_ccid/usb.py`, `f_ccid/iccd.py`,
`f_ccid/slot.py` and `f_ccid/__init__.py` that the verified properties are
about.  Python exceptions are modelled with `Except PyError`; ctypes structures
are modelled as keyword-argument lists together with the declared field-name
list of the structure class (ctypes silently turns an unknown keyword argument
into an inert instance attribute, so construction never rejects a keyword, and
reading an unset field yields 0).  Machine integers are `Nat`, truncated with
`% 256` / `% 2 ^ 32` at serialisation, exactly where ctypes truncates.
-/

namespace FCcid

/-! ### Constants from `f_ccid/usb.py` -/

def MESSAGE_TYPE_POWER_ON : Nat := 0x62
def MESSAGE_TYPE_POWER_OFF : Nat := 0x63
def MESSAGE_TYPE_GET_SLOT_STATUS : Nat := 0x65
def MESSAGE_TYPE_XFR_BLOCK : Nat := 0x6f
def MESSAGE_TYPE_GET_PARAMETERS : Nat := 0x6c
def MESSAGE_TYPE_RESET_PARAMETERS : Nat := 0x6d
def MESSAGE_TYPE_SET_PARAMETERS : Nat := 0x61
def MESSAGE_TYPE_ESCAPE : Nat := 0x6b
def MESSAGE_TYPE_ICC_CLOCK : Nat := 0x6e
def MESSAGE_TYPE_T0_APDU : Nat := 0x6a
def MESSAGE_TYPE_SECURE : Nat := 0x69
def MESSAGE_TYPE_MECHANICAL : Nat := 0x71
def MESSAGE_TYPE_ABORT : Nat := 0x72
def MESSAGE_TYPE_SET_RATE_AND_CLOCK : Nat := 0x73

def MESSAGE_TYPE_SLOT_CHANGE : Nat := 0x50
def MESSAGE_TYPE_HARDWARE_ERROR : Nat := 0x51
def MESSAGE_TYPE_DATA_BLOCK : Nat := 0x80
def MESSAGE_TYPE_SLOT_STATUS : Nat := 0x81
def MESSAGE_TYPE_PARAMETERS : Nat := 0x82
def MESSAGE_TYPE_ESCAPE_RESPONSE : Nat := 0x83
def MESSAGE_TYPE_RATE_AND_CLOCK : Nat := 0x84

def CLOCK_STATUS_RUNNING : Nat := 0
def CLOCK_STATUS_STOPPED : Nat := 3

def CHAIN_BEGIN_AND_END : Nat := 0
def CHAIN_BEGIN : Nat := 1
def CHAIN_END : Nat := 2
def CHAIN_INTERMEDIATE : Nat := 3
def CHAIN_CONTINUE : Nat := 0x10

/-- Model of `CHAIN_TO_START_STOP_DICT` from `usb.py`; `none` models a `KeyError`. -/
def CHAIN_TO_START_STOP (wLevelParameter : Nat) : Option (Bool × Bool) :=
  if wLevelParameter = CHAIN_BEGIN_AND_END then some (true, true)
  else if wLevelParameter = CHAIN_BEGIN then some (true, false)
  else if wLevelParameter = CHAIN_END then some (false, true)
  else if wLevelParameter = CHAIN_INTERMEDIATE then some (false, false)
  else none

/-- Model of `START_STOP_TO_CHAIN_DICT` from `usb.py` (total on `Bool × Bool`). -/
def START_STOP_TO_CHAIN (start stop : Bool) : Nat :=
  if start then (if stop then CHAIN_BEGIN_AND_END else CHAIN_BEGIN)
  else (if stop then CHAIN_END else CHAIN_INTERMEDIATE)

def DATA_MAX_LENGTH : Nat := 65538

def ICC_STATUS_ACTIVE : Nat := 0
def ICC_STATUS_INACTIVE : Nat := 1
def ICC_STATUS_NOT_PRESENT : Nat := 2

def COMMAND_STATUS_OK : Nat := 0
def COMMAND_STATUS_FAILED : Nat := 1

def ERROR_CMD_ABORTED : Nat := 0xff
def ERROR_ICC_MUTE : Nat := 0xfe
def ERROR_CMD_NOT_SUPPORTED : Nat := 0
def ERROR_BAD_LENGTH : Nat := 1
def ERROR_SLOT_DOES_NOT_EXIST : Nat := 5
def ERROR_POWERSELECT_NOT_SUPPORTED : Nat := 7
def ERROR_PROTOCOLNUM_NOT_SUPPORTED : Nat := 7
def ERROR_BAD_WLEVEL : Nat := 8

def ICC_BULK_HEAD_LEN : Nat := 10

/-! ### Python exception model -/

/-- Python exception classes that the embedded code can raise. -/
inductive PyError where
  | keyError
  | indexError
  | attributeError
  | assertionError
  | typeError
  | valueError
  | runtimeError
  deriving DecidableEq, Repr

/-! ### The card contract (external collaborator, `spec.md` section 3) -/

/-- The pluggable card object: `getATR` is modelled by the `atr` field and
`runAPDU` by a pure function.  `clearVolatile` only touches card-internal
state, which is outside the slot model. -/
structure Card where
  atr : List Nat
  runAPDU : List Nat → List Nat

/-! ### ctypes structure model (`f_ccid/iccd.py`)

A constructed response object is the declared field-name list of its class plus the
keyword arguments it was constructed with.  ctypes semantics, checked against
CPython: a keyword that is not a declared field is stored as an inert instance
attribute (it does not raise and does not reach the wire), and a declared field
that was never assigned reads as 0. -/

structure CtypesStruct where
  fieldNames : List String
  kwargs : List (String × Nat)
  deriving DecidableEq, Repr

/-- Read a declared field: the constructor keyword if one with that exact name
was given, else 0.  Reading a name that is not a declared field is an instance
attribute lookup, which never reaches the serialised bytes; fields only. -/
def CtypesStruct.get (s : CtypesStruct) (name : String) : Nat :=
  if s.fieldNames.contains name then ((s.kwargs.lookup name).getD 0) else 0

/-- Field chain of `ICCDResponseBase` (under `ICCDMessageBase` and
`ICCDBulkMessageBase`). -/
def responseBaseFields : List String :=
  ["bMessageType", "dwLength", "bSlot", "bSeq",
   "bmICCStatus", "bmRFU", "bmCommandStatus", "bError"]

def slotStatusFields : List String := responseBaseFields ++ ["bClockStatus"]

def dataBlockFields : List String := responseBaseFields ++ ["bChainParameter"]

def parametersBaseFields : List String := responseBaseFields ++ ["bProtocolNum"]

def parameterT0Fields : List String :=
  parametersBaseFields ++
  ["bmFindexDindex", "bmTCCKS", "bGuardTime", "bmWaitingIntegers", "bClockStop"]

def parameterT1Fields : List String := parameterT0Fields ++ ["bIFSC", "bNadValue"]

def escapeResponseFields : List String := responseBaseFields

def rateAndClockFields : List String :=
  responseBaseFields ++ ["bRFU", "dwClockFrequency", "dwDataRate"]

/-- A bulk response as produced by `ICCDRequestBase.getResponse`: the ctypes
header object paired with the body bytes. -/
abbrev Response := CtypesStruct × List Nat

/-- Build a response header object of the given response class:
`ICCDMessageBase.__init__` injects `bMessageType` as a keyword. -/
def mkResponseStruct (bMessageType : Nat) (fields : List String)
    (kwargs : List (String × Nat)) : CtypesStruct :=
  { fieldNames := fields, kwargs := ("bMessageType", bMessageType) :: kwargs }

/-- Resolution of `response_type` keyed on the request `bMessageType`, from the
`response_type` class attributes in `iccd.py`.  For the three parameters
requests `response_type` is `_ICCDResponseParametersBase`, whose `__new__`
requires a `bProtocolNum` keyword (else `TypeError`) and indexes
`GET_PARAMETERS_STRUCT_DICT` with it (unknown protocol: `KeyError`). -/
def responseStructFor (reqMessageType : Nat) (kwargs : List (String × Nat)) :
    Except PyError CtypesStruct :=
  if reqMessageType = MESSAGE_TYPE_POWER_ON ∨ reqMessageType = MESSAGE_TYPE_XFR_BLOCK ∨
      reqMessageType = MESSAGE_TYPE_SECURE then
    .ok (mkResponseStruct MESSAGE_TYPE_DATA_BLOCK dataBlockFields kwargs)
  else if reqMessageType = MESSAGE_TYPE_POWER_OFF ∨
      reqMessageType = MESSAGE_TYPE_GET_SLOT_STATUS ∨
      reqMessageType = MESSAGE_TYPE_ICC_CLOCK ∨ reqMessageType = MESSAGE_TYPE_T0_APDU ∨
      reqMessageType = MESSAGE_TYPE_MECHANICAL ∨ reqMessageType = MESSAGE_TYPE_ABORT then
    .ok (mkResponseStruct MESSAGE_TYPE_SLOT_STATUS slotStatusFields kwargs)
  else if reqMessageType = MESSAGE_TYPE_GET_PARAMETERS ∨
      reqMessageType = MESSAGE_TYPE_RESET_PARAMETERS ∨
      reqMessageType = MESSAGE_TYPE_SET_PARAMETERS then
    match kwargs.lookup "bProtocolNum" with
    | none => .error .typeError
    | some 0 => .ok (mkResponseStruct MESSAGE_TYPE_PARAMETERS parameterT0Fields kwargs)
    | some 1 => .ok (mkResponseStruct MESSAGE_TYPE_PARAMETERS parameterT1Fields kwargs)
    | some _ => .error .keyError
  else if reqMessageType = MESSAGE_TYPE_ESCAPE then
    .ok (mkResponseStruct MESSAGE_TYPE_ESCAPE_RESPONSE escapeResponseFields kwargs)
  else if reqMessageType = MESSAGE_TYPE_SET_RATE_AND_CLOCK then
    .ok (mkResponseStruct MESSAGE_TYPE_RATE_AND_CLOCK rateAndClockFields kwargs)
  else
    -- no `response_type` class attribute: AttributeError (unreachable, the
    -- buffer parser only produces registered request types)
    .error .attributeError

/-! ### Decoded bulk requests (`iccd.py` request classes) -/

/-- A decoded bulk request header.  All request classes share the first 7
bytes; the three type-specific bytes are kept in per-type fields which default
to 0 for types that do not carry them. -/
structure ICCDRequestHead where
  bMessageType : Nat
  dwLength : Nat
  bSlot : Nat
  bSeq : Nat
  bPowerSelect : Nat := 0
  bProtocolNum : Nat := 0
  bBWI : Nat := 0
  wLevelParameter : Nat := 0
  deriving DecidableEq, Repr

/-- Model of `ICCDRequestBase.getResponse`: build the response header for this request,
copying `bSlot` and `bSeq`, with `dwLength` equal to the body length.
`ICCDResponseBase.__init__` requires a `bmICCStatus` argument (`TypeError` when
absent); `bmCommandStatus` and `bError` default to 0, which coincides with the
unset-field default. -/
def ICCDRequestHead.getResponse (head : ICCDRequestHead) (body : List Nat)
    (kw : List (String × Nat)) : Except PyError Response := do
  let kwargs := [("dwLength", body.length), ("bSlot", head.bSlot), ("bSeq", head.bSeq)] ++ kw
  let st ← responseStructFor head.bMessageType kwargs
  if (kwargs.lookup "bmICCStatus").isNone then
    throw .typeError
  return (st, body)

/-! ### Buffer decoding (`_ICCDStructRegistrar.guess_subtype_from_buffer`) -/

/-- Message types registered in the metaclass registry by a subclass of
`ICCDRequestBase` (classes in `iccd.py` that declare `_bMessageType`;
`_ICCDRequestSetParameters` and the secure/PIN refinement classes do not
declare `_bMessageType` in their own class dict, so the registered class for
0x61 is the 10-byte `ICCDRequestSetParameters` and for 0x69 the 10-byte
`ICCDRequestSecure`). -/
def registeredRequestTypes : List Nat :=
  [MESSAGE_TYPE_POWER_ON, MESSAGE_TYPE_POWER_OFF, MESSAGE_TYPE_GET_SLOT_STATUS,
   MESSAGE_TYPE_XFR_BLOCK, MESSAGE_TYPE_GET_PARAMETERS, MESSAGE_TYPE_RESET_PARAMETERS,
   MESSAGE_TYPE_SET_PARAMETERS, MESSAGE_TYPE_ESCAPE, MESSAGE_TYPE_ICC_CLOCK,
   MESSAGE_TYPE_T0_APDU, MESSAGE_TYPE_SECURE, MESSAGE_TYPE_MECHANICAL,
   MESSAGE_TYPE_ABORT, MESSAGE_TYPE_SET_RATE_AND_CLOCK]

/-- Little-endian u32 from four bytes. -/
def le32 (b0 b1 b2 b3 : Nat) : Nat :=
  b0 + 256 * b1 + 65536 * b2 + 16777216 * b3

/-- Size in bytes of the registered ctypes request structure for a message
type.  Every registered request class adds 3 type-specific bytes to the 7-byte
`ICCDRequestBase` header, except `ICCDRequestRateAndClockRequest`
(`SET_RATE_AND_CLOCK`, 0x73), which declares its extra members under `_slots_`
instead of `_fields_` and therefore keeps the 7-byte base size. -/
def requestStructSize (bMessageType : Nat) : Nat :=
  if bMessageType = MESSAGE_TYPE_SET_RATE_AND_CLOCK then 7 else ICC_BULK_HEAD_LEN

/-- Model of `ICCDRequestBase.guess_subtype_from_buffer(data)`: peek at the first byte,
look the type up in the registry, and parse the concrete request structure.
A type byte without a registry entry, or one whose registered class is not an
`ICCDRequestBase` subclass (responses, notifications), raises `ValueError`; so
does a buffer shorter than the structure (ctypes `from_buffer`).  Registered
request structures are 10 bytes, except the 7-byte `SET_RATE_AND_CLOCK`
structure (see `requestStructSize`). -/
def guess_subtype_from_buffer (data : List Nat) : Except PyError ICCDRequestHead :=
  match data with
  | [] => .error .valueError
  | b0 :: rest =>
    if registeredRequestTypes.contains b0 then
      if b0 = MESSAGE_TYPE_SET_RATE_AND_CLOCK then
        match rest with
        | b1 :: b2 :: b3 :: b4 :: b5 :: b6 :: _ =>
          .ok { bMessageType := b0
                dwLength := le32 b1 b2 b3 b4
                bSlot := b5
                bSeq := b6 }
        | _ => .error .valueError
      else
        match rest with
        | b1 :: b2 :: b3 :: b4 :: b5 :: b6 :: b7 :: b8 :: b9 :: _ =>
          .ok { bMessageType := b0
                dwLength := le32 b1 b2 b3 b4
                bSlot := b5
                bSeq := b6
                bPowerSelect := if b0 = MESSAGE_TYPE_POWER_ON then b7 else 0
                bProtocolNum := if b0 = MESSAGE_TYPE_SET_PARAMETERS then b7 else 0
                bBWI :=
                  if b0 = MESSAGE_TYPE_XFR_BLOCK ∨ b0 = MESSAGE_TYPE_SECURE then b7 else 0
                wLevelParameter :=
                  if b0 = MESSAGE_TYPE_XFR_BLOCK ∨ b0 = MESSAGE_TYPE_SECURE then
                    b8 + 256 * b9
                  else 0 }
        | _ => .error .valueError
    else .error .valueError

/-- Constant `ICCD_REQUEST_SET_PARAMETERS_T1_LENGTH`:
`sizeof(ICCDRequestSetParametersT1) - sizeof(ICCDRequestSetParameters)`
= 17 - 10 = 7. -/
def ICCD_REQUEST_SET_PARAMETERS_T1_LENGTH : Nat := 7

/-! ### Serialisation (`functionfs.serialise` = raw ctypes bytes) -/

/-- Little-endian bytes of a u32 field value (ctypes truncates). -/
def le32Bytes (n : Nat) : List Nat :=
  [n % 256, n / 256 % 256, n / 65536 % 256, n / 16777216 % 256]

/-- The byte that packs `bmICCStatus` (bits 0-1), `bmRFU` (bits 2-5) and
`bmCommandStatus` (bits 6-7), as laid out by the ctypes bit-fields of
`ICCDResponseBase`. -/
def statusByte (s : CtypesStruct) : Nat :=
  s.get "bmICCStatus" % 4 + s.get "bmRFU" % 16 * 4 + s.get "bmCommandStatus" % 4 * 64

/-- Wire bytes of an `ICCDResponseSlotStatus` header (10 bytes): message type,
u32 length, slot, sequence, packed status byte, error, clock status. -/
def serialiseSlotStatus (s : CtypesStruct) : List Nat :=
  [s.get "bMessageType" % 256] ++ le32Bytes (s.get "dwLength") ++
  [s.get "bSlot" % 256, s.get "bSeq" % 256, statusByte s,
   s.get "bError" % 256, s.get "bClockStatus" % 256]

/-! ### The slot (`f_ccid/slot.py`) -/

/-- State set up by `ICCDSlot.__init__`.  `_data` is the APDU reassembly buffer (a list
of byte chunks); the two abort latches implement the bulk/control rendezvous.
The `_onEvent` callback only performs interrupt-endpoint I/O and carries no
state, so it is not part of the model. -/
structure ICCDSlot where
  status : Nat
  changed : Bool
  data : List (List Nat)
  abort_control_sequence : Option Nat
  abort_response : Option Response
  card : Option Card

/-- A freshly constructed slot. -/
def ICCDSlot.fresh : ICCDSlot :=
  { status := ICC_STATUS_NOT_PRESENT
    changed := false
    data := []
    abort_control_sequence := none
    abort_response := none
    card := none }

/-- Model of `ICCDSlot.insert(card)`: `RuntimeError` if a card is already present. -/
def ICCDSlot.insert (s : ICCDSlot) (card : Card) : Except PyError ICCDSlot :=
  match s.card with
  | some _ => .error .runtimeError
  | none =>
    .ok { s with
          card := some card
          status := ICC_STATUS_INACTIVE
          data := []
          changed := true }

/-- Model of `ICCDSlot.isAborting`. -/
def ICCDSlot.isAborting (s : ICCDSlot) : Bool :=
  s.abort_control_sequence.isSome || s.abort_response.isSome

/-- Read of `response[0].bSeq` in `abortFromBulk`: the response is the
`(header, body)` pair built by `getResponse`, so element 0 is the ctypes
header and the attribute read succeeds. -/
def Response.headBSeq (r : Response) : Nat := r.1.get "bSeq"

/-- Read of `response.bSeq` in `abortFromControl` on the stored response: the
stored object is the `(header, body)` pair itself, and a Python tuple has no
attribute `bSeq`, so the read raises `AttributeError`. -/
def Response.tupleBSeq (_ : Response) : Except PyError Nat :=
  .error .attributeError

/-- The result of one abort rendezvous call: either the response to emit, or
the `ABORT_MARKER` sentinel (spec name: `AbortPending`). -/
inductive AbortResult where
  | response (r : Response)
  | marker

/-- Model of `ICCDSlot.abortFromBulk(response)`. -/
def ICCDSlot.abortFromBulk (s : ICCDSlot) (response : Response) :
    Except PyError (AbortResult × ICCDSlot) :=
  if s.abort_control_sequence = some response.headBSeq then
    .ok (.response response, { s with abort_control_sequence := none })
  else if s.abort_response.isSome then
    .error .assertionError
  else
    .ok (.marker, { s with abort_response := some response })

/-- Model of `ICCDSlot.abortFromControl(sequence)`.  The guard
`response is None or sequence != response.bSeq` short-circuits: with no stored
response the sequence is latched (after the assertion), otherwise the
attribute read on the stored tuple raises before anything else happens. -/
def ICCDSlot.abortFromControl (s : ICCDSlot) (sequence : Nat) :
    Except PyError (AbortResult × ICCDSlot) :=
  match s.abort_response with
  | none =>
    if s.abort_control_sequence.isSome then .error .assertionError
    else .ok (.marker, { s with abort_control_sequence := some sequence })
  | some response => do
    let stored ← response.tupleBSeq
    if sequence ≠ stored then
      if s.abort_control_sequence.isSome then .error .assertionError
      else .ok (.marker, { s with abort_control_sequence := some sequence })
    else
      .ok (.response response, { s with abort_response := none })

/-- Model of `ICCDSlot.clearAPDU`. -/
def ICCDSlot.clearAPDU (s : ICCDSlot) : ICCDSlot := { s with data := [] }

/-- Model of `ICCDSlot.storeAPDU(apdu)`. -/
def ICCDSlot.storeAPDU (s : ICCDSlot) (apdu : List Nat) : ICCDSlot :=
  { s with data := s.data ++ [apdu] }

/-- Model of `ICCDSlot.powerOn`: promote Inactive to Active, assert the APDU buffer is
empty, then read the ATR from the card (`AttributeError` on `None`). -/
def ICCDSlot.powerOn (s : ICCDSlot) : Except PyError (List Nat × ICCDSlot) :=
  let s := if s.status = ICC_STATUS_INACTIVE then { s with status := ICC_STATUS_ACTIVE } else s
  if s.data ≠ [] then .error .assertionError
  else
    match s.card with
    | none => .error .attributeError
    | some c => .ok (c.atr, s)

/-- Model of `ICCDSlot.powerOff`: demote Active to Inactive (clearing card-volatile
state, which lives outside the slot), then always clear the APDU buffer.
`card.clearVolatile()` on an Active slot with no card bound would be an
`AttributeError` on `None`. -/
def ICCDSlot.powerOff (s : ICCDSlot) : Except PyError ICCDSlot :=
  if s.status = ICC_STATUS_ACTIVE then
    match s.card with
    | none => .error .attributeError
    | some _ => .ok { s with status := ICC_STATUS_INACTIVE, data := [] }
  else
    .ok { s with data := [] }

/-- Model of `ICCDSlot.runAPDU`: concatenate the stored chunks
(`chainBytearrayList`), run them through the card, clear the buffer. -/
def ICCDSlot.runAPDU (s : ICCDSlot) : Except PyError (List Nat × ICCDSlot) :=
  match s.card with
  | none => .error .attributeError
  | some c => .ok (c.runAPDU s.data.flatten, { s with data := [] })

/-! ### The dispatcher (`ICCDFunction` in `f_ccid/__init__.py`) -/

/-- An element of the tuple returned by `onICCDRequest`: normally a
`(header, body)` response pair; the `ABORT` branch can instead put the bare
`ABORT_MARKER` sentinel inside the returned tuple. -/
inductive RespItem where
  | resp (r : Response)
  | marker

/-- The dispatcher state: the slot tuple (`self.slot_list`). -/
structure ICCDFunctionState where
  slot_list : List ICCDSlot

/-- State of `ICCDFunction(path, slot_count)`: `slot_count` freshly constructed
slots. -/
def initialState (slot_count : Nat) : ICCDFunctionState :=
  { slot_list := List.replicate slot_count ICCDSlot.fresh }

/-- Replace slot `i` (models in-place mutation of the slot object). -/
def ICCDFunctionState.setSlot (st : ICCDFunctionState) (i : Nat) (s : ICCDSlot) :
    ICCDFunctionState :=
  { st with slot_list := st.slot_list.set i s }

/-- The per-chunk response of the `XFR_BLOCK` fragmentation loop:
`getResponse(bChainParameter=START_STOP_TO_CHAIN_DICT[(start, stop)],
body=chunk)` with `bmICCStatus` taken from the slot by the `getResponse`
closure. -/
def xfrChunkResponse (head : ICCDRequestHead) (slotStatus : Nat)
    (start stop : Bool) (chunk : List Nat) : Except PyError Response :=
  head.getResponse chunk
    [("bmICCStatus", slotStatus), ("bChainParameter", START_STOP_TO_CHAIN start stop)]

/-- The `while True` fragmentation loop of the `XFR_BLOCK` branch: slice
`DATA_MAX_LENGTH`-sized chunks off the response body; a chunk strictly shorter
than `DATA_MAX_LENGTH` is the last one. -/
def fragmentLoop (mk : Bool → Bool → List Nat → Except PyError Response)
    (start : Bool) (rest : List Nat) : Except PyError (List Response) :=
  if _h : (rest.take DATA_MAX_LENGTH).length < DATA_MAX_LENGTH then
    (mk start true (rest.take DATA_MAX_LENGTH)).map fun r => [r]
  else do
    let r ← mk start false (rest.take DATA_MAX_LENGTH)
    let tail ← fragmentLoop mk false (rest.drop DATA_MAX_LENGTH)
    return (r :: tail)
termination_by rest.length
decreasing_by
  simp only [List.length_take, List.length_drop, not_lt, le_min_iff,
    DATA_MAX_LENGTH] at *
  omega

/-- Model of `ICCDFunction.onICCDRequest(head, body)`.

Here `self.slot_list` is a tuple, so an out-of-range `head.bSlot` raises
`IndexError`; the `except KeyError` clause does not catch it, which makes the
`ERROR_SLOT_DOES_NOT_EXIST` response below it unreachable. -/
def onICCDRequest (st : ICCDFunctionState) (head : ICCDRequestHead) (body : List Nat) :
    Except PyError (List RespItem × ICCDFunctionState) :=
  let message_type := head.bMessageType
  match st.slot_list[head.bSlot]? with
  | none => .error .indexError
  | some slot =>
    -- getErrorResponse / getResponse closures over `head` and `slot`
    let getErrorResponse := fun (error : Nat) (kw : List (String × Nat)) =>
      head.getResponse []
        ([("bmICCStatus", slot.status), ("bmCommandStatus", COMMAND_STATUS_FAILED),
          ("bError", error)] ++ kw)
    let getResponse := fun (body : List Nat) (kw : List (String × Nat)) =>
      head.getResponse body (("bmICCStatus", slot.status) :: kw)

    if message_type = MESSAGE_TYPE_ABORT then
      if head.dwLength ≠ 0 then do
        let r ← getErrorResponse ERROR_BAD_LENGTH []
        return ([.resp r], st)
      else do
        let r ← getResponse [] [("bClockStatus", CLOCK_STATUS_RUNNING)]
        let (result, slot) ← slot.abortFromBulk r
        match result with
        | .response rr => return ([.resp rr], st.setSlot head.bSlot slot)
        | .marker => return ([.marker], st.setSlot head.bSlot slot)
    else if message_type = MESSAGE_TYPE_POWER_OFF then do
      let slot ← slot.powerOff
      let r ← head.getResponse []
        [("bmICCStatus", slot.status), ("bClockStatus", CLOCK_STATUS_RUNNING)]
      return ([.resp r], st.setSlot head.bSlot slot)
    else if message_type = MESSAGE_TYPE_GET_SLOT_STATUS then
      if head.dwLength ≠ 0 then do
        let r ← getErrorResponse ERROR_BAD_LENGTH []
        return ([.resp r], st)
      else do
        let r ← getResponse [] [("bClockStatus", CLOCK_STATUS_RUNNING)]
        return ([.resp r], st)
    else if message_type = MESSAGE_TYPE_SET_RATE_AND_CLOCK then do
      let r ← getErrorResponse ERROR_CMD_NOT_SUPPORTED []
      return ([.resp r], st)

    -- All other commands require a card being present
    else if slot.status = ICC_STATUS_NOT_PRESENT then do
      let r ← getErrorResponse ERROR_ICC_MUTE []
      return ([.resp r], st)

    else if message_type = MESSAGE_TYPE_GET_PARAMETERS ∨
        message_type = MESSAGE_TYPE_RESET_PARAMETERS ∨
        message_type = MESSAGE_TYPE_SET_PARAMETERS then
      if message_type = MESSAGE_TYPE_SET_PARAMETERS ∧ head.bProtocolNum ≠ 1 then do
        let r ← getErrorResponse ERROR_PROTOCOLNUM_NOT_SUPPORTED [("bProtocolNum", 0)]
        return ([.resp r], st)
      else if message_type = MESSAGE_TYPE_SET_PARAMETERS ∧
          head.dwLength ≠ ICCD_REQUEST_SET_PARAMETERS_T1_LENGTH then do
        let r ← getErrorResponse ERROR_BAD_LENGTH [("bProtocolNum", 0)]
        return ([.resp r], st)
      else if message_type ≠ MESSAGE_TYPE_SET_PARAMETERS ∧ head.dwLength ≠ 0 then do
        let r ← getErrorResponse ERROR_BAD_LENGTH [("bProtocolNum", 0)]
        return ([.resp r], st)
      else do
        let r ← getResponse []
          [("bProtocolNum", 1), ("bmFindexDindex", 0x11), ("bmTCCKST", 0x11),
           ("bGuardTimeT", 0xfe), ("bmWaitingIntegersT", 0x55),
           ("bClockStop", CLOCK_STATUS_STOPPED), ("bIFSC", 0xfe), ("bNadValue", 0)]
        return ([.resp r], st)
    else if message_type = MESSAGE_TYPE_ICC_CLOCK then do
      let r ← getErrorResponse ERROR_CMD_NOT_SUPPORTED []
      return ([.resp r], st)
    else if message_type = MESSAGE_TYPE_MECHANICAL then do
      let r ← getErrorResponse ERROR_CMD_NOT_SUPPORTED []
      return ([.resp r], st)

    -- Abort all other commands if there is an abort going on
    else if slot.isAborting then do
      let r ← getErrorResponse ERROR_CMD_ABORTED []
      return ([.resp r], st)

    else if message_type = MESSAGE_TYPE_POWER_ON then
      if head.dwLength ≠ 0 then do
        let r ← getErrorResponse ERROR_BAD_LENGTH []
        return ([.resp r], st)
      else if head.bPowerSelect ≠ 0 then do
        let r ← getErrorResponse ERROR_POWERSELECT_NOT_SUPPORTED []
        return ([.resp r], st)
      else do
        -- slot.powerOn() is evaluated before the getResponse closure reads
        -- slot.status, so the response carries the post-power-on status
        let (atr, slot) ← slot.powerOn
        let r ← head.getResponse atr
          [("bmICCStatus", slot.status), ("bChainParameter", CHAIN_BEGIN_AND_END)]
        return ([.resp r], st.setSlot head.bSlot slot)
    else if message_type = MESSAGE_TYPE_XFR_BLOCK then
      if body.length ≠ head.dwLength then do
        let r ← getErrorResponse ERROR_BAD_LENGTH []
        return ([.resp r], st)
      else
        match CHAIN_TO_START_STOP head.wLevelParameter with
        | none => do
          let r ← getErrorResponse ERROR_BAD_WLEVEL []
          return ([.resp r], st)
        | some (start, stop) =>
          let slot := if start then slot.clearAPDU else slot
          let slot := slot.storeAPDU body
          if stop then do
            let (response_body, slot) ← slot.runAPDU
            let result ← fragmentLoop (xfrChunkResponse head slot.status) true response_body
            return (result.map .resp, st.setSlot head.bSlot slot)
          else do
            let r ← head.getResponse []
              [("bmICCStatus", slot.status), ("bChainParameter", CHAIN_CONTINUE)]
            return ([.resp r], st.setSlot head.bSlot slot)
    else do
      let r ← getErrorResponse ERROR_CMD_NOT_SUPPORTED []
      return ([.resp r], st)

/-- Model of `ICCDFunction.__onOUTComplete` for a successfully received bulk-OUT
buffer (non-negative status): decode the header, take the body from offset
`ctypes.sizeof(message)`, dispatch, and hand the resulting tuple to the
bulk-IN submission (the submission itself is endpoint I/O and is represented
by returning the tuple).  The guard `response is not ABORT_MARKER` is always
true here, because `onICCDRequest` returns a tuple and never the bare
sentinel; when that tuple contains the bare sentinel (bulk `ABORT` arriving
first), `__submitINIterator` raises `TypeError` unpacking it into
`(head, body)`. -/
def onOUTComplete (st : ICCDFunctionState) (data : List Nat) :
    Except PyError (List RespItem × ICCDFunctionState) := do
  let head ← guess_subtype_from_buffer data
  let (items, st') ← onICCDRequest st head (data.drop (requestStructSize head.bMessageType))
  if items.any (fun i => match i with | .marker => true | .resp _ => false) then
    throw .typeError
  else
    return (items, st')

/-- Feed a sequence of decoded requests through the dispatcher, threading the
function state. -/
def runRequests (st : ICCDFunctionState) :
    List (ICCDRequestHead × List Nat) → Except PyError ICCDFunctionState
  | [] => .ok st
  | (head, body) :: rest => do
    let (_, st') ← onICCDRequest st head body
    runRequests st' rest

/-! ### Observation helpers for dispatcher results -/

/-- Number of items in the returned tuple, when the dispatch succeeded. -/
def respCount (r : Except PyError (List RespItem × ICCDFunctionState)) : Option Nat :=
  match r with
  | .ok (items, _) => some items.length
  | .error _ => none

/-- Field `name` of the header of the `i`-th returned item (when that item
is a response and not the sentinel). -/
def respFieldAt (r : Except PyError (List RespItem × ICCDFunctionState))
    (i : Nat) (name : String) : Option Nat :=
  match r with
  | .ok (items, _) =>
    match items[i]? with
    | some (.resp (s, _)) => some (s.get name)
    | _ => none
  | .error _ => none

/-- Body of the `i`-th returned item. -/
def respBodyAt (r : Except PyError (List RespItem × ICCDFunctionState))
    (i : Nat) : Option (List Nat) :=
  match r with
  | .ok (items, _) =>
    match items[i]? with
    | some (.resp (_, body)) => some body
    | _ => none
  | .error _ => none

/-- Status of slot `i` after a successful dispatch. -/
def slotStatusAfter (r : Except PyError (List RespItem × ICCDFunctionState))
    (i : Nat) : Option Nat :=
  match r with
  | .ok (_, st) => (st.slot_list[i]?).map fun s => s.status
  | .error _ => none

/-- APDU reassembly buffer of slot `i` after a successful dispatch. -/
def slotDataAfter (r : Except PyError (List RespItem × ICCDFunctionState))
    (i : Nat) : Option (List (List Nat)) :=
  match r with
  | .ok (_, st) => (st.slot_list[i]?).map fun s => s.data
  | .error _ => none

/-- Wire bytes of a single slot-status response result: serialised header
followed by the (empty) body, as `__submitINIterator` would emit them. -/
def emittedSlotStatusBytes (r : Except PyError (List RespItem × ICCDFunctionState)) :
    Option (List Nat) :=
  match r with
  | .ok ([.resp (s, body)], _) => some (serialiseSlotStatus s ++ body)
  | _ => none

/-! ### Abort rendezvous event model -/

/-- One abort rendezvous event hitting a slot. -/
inductive AbortEvent where
  | bulk (r : Response)
  | control (sequence : Nat)

/-- Apply one abort event to a slot. -/
def abortStep (s : ICCDSlot) : AbortEvent → Except PyError (AbortResult × ICCDSlot)
  | .bulk r => s.abortFromBulk r
  | .control q => s.abortFromControl q

/-- Latch invariant of the spec: at most one of the two abort latches is
populated. -/
def atMostOneLatch (s : ICCDSlot) : Prop :=
  s.abort_control_sequence = none ∨ s.abort_response = none

/-! ### Chunk decomposition mirror of the fragmentation loop (proof aid) -/

/-- The `(start, stop, chunk)` triples the fragmentation loop builds its
responses from. -/
def fragmentChunks (start : Bool) (rest : List Nat) : List (Bool × Bool × List Nat) :=
  if _h : (rest.take DATA_MAX_LENGTH).length < DATA_MAX_LENGTH then
    [(start, true, rest.take DATA_MAX_LENGTH)]
  else
    (start, false, rest.take DATA_MAX_LENGTH) ::
      fragmentChunks false (rest.drop DATA_MAX_LENGTH)
termination_by rest.length
decreasing_by
  simp only [List.length_take, List.length_drop, not_lt, le_min_iff,
    DATA_MAX_LENGTH] at *
  omega

/-- The data-block response the XFR fragmentation loop builds for one chunk
(what `xfrChunkResponse` evaluates to on an `XFR_BLOCK` request). -/
def xfrDataBlockResp (head : ICCDRequestHead) (slotStatus : Nat)
    (start stop : Bool) (chunk : List Nat) : Response :=
  (mkResponseStruct MESSAGE_TYPE_DATA_BLOCK dataBlockFields
    ([("dwLength", chunk.length), ("bSlot", head.bSlot), ("bSeq", head.bSeq)] ++
     [("bmICCStatus", slotStatus),
      ("bChainParameter", START_STOP_TO_CHAIN start stop)]),
   chunk)

/-! ### Concrete fixtures used by the end-to-end theorems -/

/-- A small test card: fixed ATR, `runAPDU` echoes the command followed by a
success status word. -/
def testCard : Card :=
  { atr := [0x3b, 0x01], runAPDU := fun command => command ++ [0x90, 0x00] }

/-- The slot state right after `insert(testCard)` on a fresh slot. -/
def slotWithCard : ICCDSlot :=
  { ICCDSlot.fresh with
    card := some testCard
    status := ICC_STATUS_INACTIVE
    changed := true }

/-- A one-slot function whose slot holds an (unpowered) card. -/
def stWithCard : ICCDFunctionState := { slot_list := [slotWithCard] }

/-- A one-slot function whose slot holds a powered card. -/
def stActive : ICCDFunctionState :=
  { slot_list := [{ slotWithCard with status := ICC_STATUS_ACTIVE }] }

def getParamsHead : ICCDRequestHead :=
  { bMessageType := MESSAGE_TYPE_GET_PARAMETERS, dwLength := 0, bSlot := 0, bSeq := 3 }

def resetParamsHead : ICCDRequestHead :=
  { bMessageType := MESSAGE_TYPE_RESET_PARAMETERS, dwLength := 0, bSlot := 0, bSeq := 4 }

def setParamsHead : ICCDRequestHead :=
  { bMessageType := MESSAGE_TYPE_SET_PARAMETERS,
    dwLength := ICCD_REQUEST_SET_PARAMETERS_T1_LENGTH, bSlot := 0, bSeq := 5,
    bProtocolNum := 1 }

/-- The T=1 parameter tail of a `SET_PARAMETERS` request (7 bytes). -/
def setParamsBody : List Nat := [0x11, 0x11, 0xfe, 0x55, 0, 0xfe, 0]

def gssHeadSlot1 : ICCDRequestHead :=
  { bMessageType := MESSAGE_TYPE_GET_SLOT_STATUS, dwLength := 0, bSlot := 1, bSeq := 0 }

def abortHead7 : ICCDRequestHead :=
  { bMessageType := MESSAGE_TYPE_ABORT, dwLength := 0, bSlot := 0, bSeq := 7 }

/-- The prepared response the bulk `ABORT` branch builds for `abortHead7` on
an empty slot 0 (`getResponse(bClockStatus=CLOCK_STATUS_RUNNING)`). -/
def abortResp7 : Response :=
  (mkResponseStruct MESSAGE_TYPE_SLOT_STATUS slotStatusFields
    ([("dwLength", 0), ("bSlot", 0), ("bSeq", 7)] ++
     [("bmICCStatus", ICC_STATUS_NOT_PRESENT), ("bClockStatus", CLOCK_STATUS_RUNNING)]),
   [])

/-- Fresh slot with the bulk abort response latched. -/
def bulkLatchedSlot : ICCDSlot :=
  { ICCDSlot.fresh with abort_response := some abortResp7 }

/-- Fresh slot with control abort sequence 1 latched. -/
def controlLatchedSlot : ICCDSlot :=
  { ICCDSlot.fresh with abort_control_sequence := some 1 }

/-- A prepared bulk abort response carrying sequence number 2. -/
def respSeq2 : Response :=
  (mkResponseStruct MESSAGE_TYPE_SLOT_STATUS slotStatusFields
    ([("dwLength", 0), ("bSlot", 0), ("bSeq", 2)] ++
     [("bmICCStatus", ICC_STATUS_NOT_PRESENT), ("bClockStatus", CLOCK_STATUS_RUNNING)]),
   [])

/-- Slot with both latches populated (reached in the C4 counterexample). -/
def bothLatchedSlot : ICCDSlot :=
  { ICCDSlot.fresh with
    abort_control_sequence := some 1
    abort_response := some respSeq2 }

def xfrBeginHead : ICCDRequestHead :=
  { bMessageType := MESSAGE_TYPE_XFR_BLOCK, dwLength := 0, bSlot := 0, bSeq := 1,
    wLevelParameter := CHAIN_BEGIN }

def powerOnHead : ICCDRequestHead :=
  { bMessageType := MESSAGE_TYPE_POWER_ON, dwLength := 0, bSlot := 0, bSeq := 2 }

def powerOffHead1 : ICCDRequestHead :=
  { bMessageType := MESSAGE_TYPE_POWER_OFF, dwLength := 1, bSlot := 0, bSeq := 4 }

def escapeHead : ICCDRequestHead :=
  { bMessageType := MESSAGE_TYPE_ESCAPE, dwLength := 0, bSlot := 0, bSeq := 9 }

/-- The literal `GET_SLOT_STATUS` request of spec scenario 1. -/
def c9RequestBytes : List Nat := [0x65, 0, 0, 0, 0, 0, 7, 0, 0, 0]

/-- The literal response of spec scenario 1. -/
def c9ResponseBytes : List Nat := [0x81, 0, 0, 0, 0, 0, 7, 2, 0, 0]

/-- A bulk `ABORT` whose `dwLength` is not zero. -/
def abortBadLenHead : ICCDRequestHead :=
  { bMessageType := MESSAGE_TYPE_ABORT, dwLength := 1, bSlot := 0, bSeq := 6 }

/-! ### Specification properties (instantiated by the theorems below) -/

/-- Behaviour of `powerOff` on one slot: it succeeds, leaves the slot
non-Active with an empty APDU buffer, is idempotent, and on a non-Active slot
changes nothing but the buffer. -/
def PowerOffSpec (s : ICCDSlot) : Prop :=
  ∃ s', s.powerOff = .ok s' ∧ s'.status ≠ ICC_STATUS_ACTIVE ∧ s'.data = [] ∧
    s'.powerOff = .ok s' ∧ (s.status ≠ ICC_STATUS_ACTIVE → s' = { s with data := [] })

/-- Behaviour of one successful abort rendezvous step from `s` to `s'`:
the at-most-one-latch invariant is preserved whenever a bulk abort does not
arrive against a differently-numbered latched control sequence; the control
latch is cleared only by a bulk abort with matching sequence; and the bulk
latch is never cleared by a successful call. -/
def AbortStepSpec (s : ICCDSlot) (e : AbortEvent) (s' : ICCDSlot) : Prop :=
  (atMostOneLatch s →
    (∀ r, e = .bulk r → s.abort_control_sequence = none ∨
      s.abort_control_sequence = some r.headBSeq) →
    atMostOneLatch s') ∧
  (s'.abort_control_sequence = none → s.abort_control_sequence = none ∨
    ∃ r, e = .bulk r ∧ s.abort_control_sequence = some r.headBSeq) ∧
  (s.abort_response.isSome → s'.abort_response = s.abort_response)

/-- Behaviour of the XFR response fragmenter on a card response `body`: it
emits `body.length / DATA_MAX_LENGTH + 1` data-block responses whose bodies
concatenate back to `body`, chained `BEGIN_AND_END` for a single message and
otherwise `BEGIN`, then `INTERMEDIATE` for each middle message, then `END`. -/
def FragmenterSpec (slotStatus : Nat) (head : ICCDRequestHead) (body : List Nat) : Prop :=
  ∃ rs : List Response,
    fragmentLoop (xfrChunkResponse head slotStatus) true body = .ok rs ∧
    rs.length = body.length / DATA_MAX_LENGTH + 1 ∧
    (rs.map fun r => r.2).flatten = body ∧
    (∀ r ∈ rs, r.1.get "bMessageType" = MESSAGE_TYPE_DATA_BLOCK) ∧
    (rs.map fun r => r.1.get "bChainParameter") =
      (if body.length < DATA_MAX_LENGTH then [CHAIN_BEGIN_AND_END]
       else CHAIN_BEGIN ::
         (List.replicate (body.length / DATA_MAX_LENGTH - 1) CHAIN_INTERMEDIATE ++
          [CHAIN_END]))

/-- Rejection with `ERROR_BAD_LENGTH`: the dispatcher answers with exactly one
failed slot-status response and does not change the function state. -/
def BadLengthRejectSpec (st : ICCDFunctionState) (head : ICCDRequestHead)
    (body : List Nat) : Prop :=
  ∃ s, onICCDRequest st head body = .ok ([.resp (s, [])], st) ∧
    s.get "bmCommandStatus" = COMMAND_STATUS_FAILED ∧
    s.get "bError" = ERROR_BAD_LENGTH ∧
    s.get "bMessageType" = MESSAGE_TYPE_SLOT_STATUS

/-- Behaviour of a dispatched `POWER_OFF`: the slot is powered off and a
success slot-status response is returned. -/
def PowerOffDispatchSpec (st : ICCDFunctionState) (head : ICCDRequestHead)
    (body : List Nat) (slot : ICCDSlot) : Prop :=
  ∃ slot' s, slot.powerOff = .ok slot' ∧ slot'.status ≠ ICC_STATUS_ACTIVE ∧
    slot'.data = [] ∧
    onICCDRequest st head body = .ok ([.resp (s, [])], st.setSlot head.bSlot slot') ∧
    s.get "bmCommandStatus" = COMMAND_STATUS_OK ∧ s.get "bError" = 0

/-! ### Supporting lemmas -/

/-- The fixture `slotWithCard` is exactly the state `insert(testCard)` leaves
behind on a fresh slot. -/
theorem insert_testCard_fresh : ICCDSlot.fresh.insert testCard = .ok slotWithCard := rfl

/-- Number of chunks the fragmentation loop slices off a body. -/
theorem fragmentChunks_length (start : Bool) (rest : List Nat) :
    (fragmentChunks start rest).length = rest.length / DATA_MAX_LENGTH + 1 := by
  induction start, rest using fragmentChunks.induct with
  | case1 start rest h =>
    rw [fragmentChunks]
    simp only [dif_pos h, List.length_singleton]
    simp only [List.length_take, DATA_MAX_LENGTH] at h ⊢
    omega
  | case2 start rest h ih =>
    rw [fragmentChunks]
    simp only [dif_neg h, List.length_cons, ih, List.length_drop]
    simp only [List.length_take, DATA_MAX_LENGTH, not_lt, le_min_iff] at h ⊢
    omega

/-- The chunks concatenate back to the body. -/
theorem fragmentChunks_flatten (start : Bool) (rest : List Nat) :
    ((fragmentChunks start rest).map fun x => x.2.2).flatten = rest := by
  induction start, rest using fragmentChunks.induct with
  | case1 start rest h =>
    rw [fragmentChunks]
    simp only [dif_pos h, List.map_cons, List.map_nil, List.flatten_cons,
      List.flatten_nil, List.append_nil]
    apply List.take_of_length_le
    simp only [List.length_take] at h
    omega
  | case2 start rest h ih =>
    rw [fragmentChunks]
    simp only [dif_neg h, List.map_cons, List.flatten_cons, ih]
    exact List.take_append_drop _ _

/-- Chain parameters produced along the chunk list. -/
theorem fragmentChunks_chains (start : Bool) (rest : List Nat) :
    ((fragmentChunks start rest).map fun x => START_STOP_TO_CHAIN x.1 x.2.1) =
      if rest.length < DATA_MAX_LENGTH then [START_STOP_TO_CHAIN start true]
      else START_STOP_TO_CHAIN start false ::
        (List.replicate (rest.length / DATA_MAX_LENGTH - 1) CHAIN_INTERMEDIATE ++
         [CHAIN_END]) := by
  induction start, rest using fragmentChunks.induct with
  | case1 start rest h =>
    rw [fragmentChunks]
    have hlen : rest.length < DATA_MAX_LENGTH := by
      simp only [List.length_take] at h; omega
    simp [dif_pos h, hlen]
  | case2 start rest h ih =>
    rw [fragmentChunks]
    have hlen : ¬ rest.length < DATA_MAX_LENGTH := by
      simp only [List.length_take] at h; omega
    simp only [dif_neg h, List.map_cons, ih, if_neg hlen, List.length_drop]
    by_cases h2 : rest.length - DATA_MAX_LENGTH < DATA_MAX_LENGTH
    · have hdiv : rest.length / DATA_MAX_LENGTH = 1 := by
        simp only [DATA_MAX_LENGTH] at *; omega
      simp [h2, hdiv]
      rfl
    · have hdiv : (rest.length - DATA_MAX_LENGTH) / DATA_MAX_LENGTH =
          rest.length / DATA_MAX_LENGTH - 1 := by
        simp only [DATA_MAX_LENGTH] at *; omega
      have hge : 1 ≤ rest.length / DATA_MAX_LENGTH - 1 := by
        simp only [DATA_MAX_LENGTH] at *; omega
      simp only [if_neg h2, hdiv]
      have hsplit : rest.length / DATA_MAX_LENGTH - 1 =
          (rest.length / DATA_MAX_LENGTH - 1 - 1) + 1 := by omega
      rw [hsplit, List.replicate_succ]
      rfl

/-- The fragmentation loop, when each per-chunk response construction
succeeds, returns the mapped chunk list. -/
theorem fragmentLoop_eq_map (mk : Bool → Bool → List Nat → Except PyError Response)
    (f : Bool → Bool → List Nat → Response)
    (hmk : ∀ a b c, mk a b c = .ok (f a b c)) (start : Bool) (rest : List Nat) :
    fragmentLoop mk start rest =
      .ok ((fragmentChunks start rest).map fun x => f x.1 x.2.1 x.2.2) := by
  induction start, rest using fragmentChunks.induct with
  | case1 start rest h =>
    rw [fragmentLoop, fragmentChunks]
    simp only [dif_pos h, hmk]
    rfl
  | case2 start rest h ih =>
    rw [fragmentLoop, fragmentChunks]
    simp only [dif_neg h, hmk, ih]
    rfl

/-- On an `XFR_BLOCK` request the per-chunk response construction always
succeeds and yields a data-block response. -/
theorem xfrChunkResponse_ok (head : ICCDRequestHead) (slotStatus : Nat)
    (h : head.bMessageType = MESSAGE_TYPE_XFR_BLOCK) (a b : Bool) (c : List Nat) :
    xfrChunkResponse head slotStatus a b c = .ok (xfrDataBlockResp head slotStatus a b c) := by
  obtain ⟨mt, dw, sl, sq, pw, pn, bw, wl⟩ := head
  simp only [ICCDRequestHead.bMessageType] at h
  subst h
  rfl

/-- Dispatcher part of the C6 amendment for `ABORT` and `GET_SLOT_STATUS`. -/
theorem abort_gss_bad_length (st : ICCDFunctionState) (head : ICCDRequestHead)
    (body : List Nat) (slot : ICCDSlot) (hs : st.slot_list[head.bSlot]? = some slot)
    (hd : head.dwLength ≠ 0)
    (ht : head.bMessageType = MESSAGE_TYPE_ABORT ∨
      head.bMessageType = MESSAGE_TYPE_GET_SLOT_STATUS) :
    BadLengthRejectSpec st head body := by
  unfold BadLengthRejectSpec
  obtain ⟨mt, dw, sl, sq, pw, pn, bw, wl⟩ := head
  simp only at hs hd ht
  rcases ht with ht | ht <;> subst ht
  · refine ⟨mkResponseStruct MESSAGE_TYPE_SLOT_STATUS slotStatusFields
      [("dwLength", 0), ("bSlot", sl), ("bSeq", sq), ("bmICCStatus", slot.status),
       ("bmCommandStatus", COMMAND_STATUS_FAILED), ("bError", ERROR_BAD_LENGTH)],
      ?_, rfl, rfl, rfl⟩
    simp only [onICCDRequest, hs, MESSAGE_TYPE_ABORT, hd, ne_eq, not_false_eq_true,
      if_true, ite_true, reduceIte]
    rfl
  · refine ⟨mkResponseStruct MESSAGE_TYPE_SLOT_STATUS slotStatusFields
      [("dwLength", 0), ("bSlot", sl), ("bSeq", sq), ("bmICCStatus", slot.status),
       ("bmCommandStatus", COMMAND_STATUS_FAILED), ("bError", ERROR_BAD_LENGTH)],
      ?_, rfl, rfl, rfl⟩
    simp only [onICCDRequest, hs, MESSAGE_TYPE_GET_SLOT_STATUS, MESSAGE_TYPE_ABORT,
      MESSAGE_TYPE_POWER_OFF, hd, ne_eq, not_false_eq_true, if_true, ite_true, reduceIte]
    rfl

/-- Dispatcher part of the C6 amendment for `POWER_OFF`: no length check.
The only hypothesis besides slot validity is the data-model invariant that an
Active slot has a card bound, so card-absent slots are covered. -/
theorem power_off_no_length_check (st : ICCDFunctionState) (head : ICCDRequestHead)
    (body : List Nat) (slot : ICCDSlot)
    (hs : st.slot_list[head.bSlot]? = some slot)
    (ht : head.bMessageType = MESSAGE_TYPE_POWER_OFF)
    (hwf : slot.status = ICC_STATUS_ACTIVE → slot.card ≠ none) :
    PowerOffDispatchSpec st head body slot := by
  unfold PowerOffDispatchSpec
  obtain ⟨mt, dw, sl, sq, pw, pn, bw, wl⟩ := head
  simp only at hs ht
  subst ht
  by_cases hA : slot.status = ICC_STATUS_ACTIVE
  · match hc : slot.card with
    | none => exact absurd hc (hwf hA)
    | some c =>
      have hpo : slot.powerOff =
          .ok { slot with status := ICC_STATUS_INACTIVE, data := [] } := by
        unfold ICCDSlot.powerOff
        rw [if_pos hA, hc]
      refine ⟨{ slot with status := ICC_STATUS_INACTIVE, data := [] },
        mkResponseStruct MESSAGE_TYPE_SLOT_STATUS slotStatusFields
          [("dwLength", 0), ("bSlot", sl), ("bSeq", sq),
           ("bmICCStatus", ICC_STATUS_INACTIVE), ("bClockStatus", CLOCK_STATUS_RUNNING)],
        hpo, (by decide : ICC_STATUS_INACTIVE ≠ ICC_STATUS_ACTIVE), rfl, ?_, rfl, rfl⟩
      simp only [onICCDRequest, hs, MESSAGE_TYPE_POWER_OFF, MESSAGE_TYPE_ABORT, reduceIte, hpo]
      rfl
  · have hpo : slot.powerOff = .ok { slot with data := [] } := by
      unfold ICCDSlot.powerOff
      rw [if_neg hA]
    refine ⟨{ slot with data := [] },
      mkResponseStruct MESSAGE_TYPE_SLOT_STATUS slotStatusFields
        [("dwLength", 0), ("bSlot", sl), ("bSeq", sq),
         ("bmICCStatus", slot.status), ("bClockStatus", CLOCK_STATUS_RUNNING)],
      hpo, hA, rfl, ?_, rfl, rfl⟩
    simp only [onICCDRequest, hs, MESSAGE_TYPE_POWER_OFF, MESSAGE_TYPE_ABORT, reduceIte, hpo]
    rfl

/-! ### Claim theorems -/

/-- C1.  With a card present, `GET_PARAMETERS`, `RESET_PARAMETERS` and a
well-formed T=1 `SET_PARAMETERS` each return exactly one Parameters response
with `bProtocolNum = 1` and `bmFindexDindex = 0x11`, `bClockStop = 3`,
`bIFSC = 0xFE`, `bNadValue = 0` — but the `bmTCCKS`, `bGuardTime` and
`bmWaitingIntegers` fields of the response structure are 0 on the wire,
because the dispatcher passes the values 0x11, 0xFE and 0x55 under the keyword
names `bmTCCKST`, `bGuardTimeT` and `bmWaitingIntegersT`, which are not fields
of `ICCDResponseParameterT1` and become inert Python instance attributes.
This refutes the canonical-block part of the claim (TCCKS = 0x11,
GuardTime = 0xFE, WaitingIntegers = 0x55). -/
theorem C1_parameters_canonical_block_lost :
    respCount (onICCDRequest stWithCard getParamsHead []) = some 1 ∧
    respFieldAt (onICCDRequest stWithCard getParamsHead []) 0 "bMessageType" =
      some MESSAGE_TYPE_PARAMETERS ∧
    respFieldAt (onICCDRequest stWithCard getParamsHead []) 0 "bProtocolNum" = some 1 ∧
    respFieldAt (onICCDRequest stWithCard getParamsHead []) 0 "bmFindexDindex" = some 0x11 ∧
    respFieldAt (onICCDRequest stWithCard getParamsHead []) 0 "bmTCCKS" = some 0 ∧
    respFieldAt (onICCDRequest stWithCard getParamsHead []) 0 "bGuardTime" = some 0 ∧
    respFieldAt (onICCDRequest stWithCard getParamsHead []) 0 "bmWaitingIntegers" = some 0 ∧
    respFieldAt (onICCDRequest stWithCard getParamsHead []) 0 "bClockStop" =
      some CLOCK_STATUS_STOPPED ∧
    respFieldAt (onICCDRequest stWithCard getParamsHead []) 0 "bIFSC" = some 0xfe ∧
    respFieldAt (onICCDRequest stWithCard getParamsHead []) 0 "bNadValue" = some 0 ∧
    respCount (onICCDRequest stWithCard resetParamsHead []) = some 1 ∧
    respFieldAt (onICCDRequest stWithCard resetParamsHead []) 0 "bmTCCKS" = some 0 ∧
    respFieldAt (onICCDRequest stWithCard resetParamsHead []) 0 "bGuardTime" = some 0 ∧
    respFieldAt (onICCDRequest stWithCard resetParamsHead []) 0 "bmWaitingIntegers" = some 0 ∧
    respCount (onICCDRequest stWithCard setParamsHead setParamsBody) = some 1 ∧
    respFieldAt (onICCDRequest stWithCard setParamsHead setParamsBody) 0 "bProtocolNum" =
      some 1 ∧
    respFieldAt (onICCDRequest stWithCard setParamsHead setParamsBody) 0 "bmTCCKS" = some 0 ∧
    respFieldAt (onICCDRequest stWithCard setParamsHead setParamsBody) 0 "bGuardTime" =
      some 0 ∧
    respFieldAt (onICCDRequest stWithCard setParamsHead setParamsBody) 0
      "bmWaitingIntegers" = some 0 :=
  ⟨rfl, rfl, rfl, rfl, rfl, rfl, rfl, rfl, rfl, rfl, rfl, rfl, rfl, rfl, rfl, rfl, rfl,
   rfl, rfl⟩

/-- C2.  A request whose `bSlot` is out of range raises an uncaught
`IndexError` instead of returning an `ERROR_SLOT_DOES_NOT_EXIST` response:
`self.slot_list` is a tuple, whose out-of-range indexing raises `IndexError`,
and the handler only catches `KeyError`, so the error response coded below it
is dead.  Evaluated at a `GET_SLOT_STATUS` for slot 1 on a 1-slot reader. -/
theorem C2_invalid_slot_raises_index_error :
    onICCDRequest (initialState 1) gssHeadSlot1 [] = .error .indexError := rfl

/-- C3.  Bulk `ABORT` (sequence 7) latches its prepared response and returns
the sentinel, but the subsequent control `ABORT` with the matching sequence 7
raises `AttributeError` instead of returning the latched response:
`abortFromControl` evaluates `response.bSeq` on the stored object, which is
the `(header, body)` tuple built by `getResponse`, and a tuple has no
attribute `bSeq`.  The rendezvous therefore cannot complete in the
bulk-first order. -/
theorem C3_bulk_then_control_abort_raises :
    ICCDSlot.fresh.abortFromBulk abortResp7 = .ok (.marker, bulkLatchedSlot) ∧
    onICCDRequest (initialState 1) abortHead7 [] =
      .ok ([.marker], { slot_list := [bulkLatchedSlot] }) ∧
    bulkLatchedSlot.abortFromControl 7 = .error .attributeError :=
  ⟨rfl, rfl, rfl⟩

/-- C4 counterexample.  From a fresh slot, a control `ABORT` with sequence 1
followed by a bulk `ABORT` whose prepared response carries sequence 2 leaves
both latches populated at once, refuting the at-most-one-latch invariant as
claimed: `abortFromBulk` stores its response without checking the latched
control sequence when the sequences differ. -/
theorem C4_counterexample_both_latches :
    ICCDSlot.fresh.abortFromControl 1 = .ok (.marker, controlLatchedSlot) ∧
    controlLatchedSlot.abortFromBulk respSeq2 = .ok (.marker, bothLatchedSlot) ∧
    bothLatchedSlot.abort_control_sequence = some 1 ∧
    bothLatchedSlot.abort_response = some respSeq2 :=
  ⟨rfl, rfl, rfl, rfl⟩

/-- C4 amended.  Every successful abort rendezvous step preserves the
at-most-one-latch invariant provided a bulk `ABORT` never arrives while a
control sequence with a different number is latched (in that excluded case
both latches end up populated); the control-sequence latch is cleared only by
a bulk `ABORT` with matching sequence; and the bulk-response latch is never
cleared by any successful call (a control `ABORT` that finds it raises). -/
theorem C4_latch_amended (s : ICCDSlot) (e : AbortEvent) (res : AbortResult)
    (s' : ICCDSlot) (hstep : abortStep s e = .ok (res, s')) :
    AbortStepSpec s e s' := by
  unfold AbortStepSpec
  cases e with
  | bulk r =>
    simp only [abortStep, ICCDSlot.abortFromBulk] at hstep
    by_cases hm : s.abort_control_sequence = some r.headBSeq
    · rw [if_pos hm] at hstep
      rw [Except.ok.injEq, Prod.mk.injEq] at hstep
      obtain ⟨h2, h3⟩ := hstep
      subst h3
      exact ⟨fun _ _ => Or.inl rfl, fun _ => Or.inr ⟨r, rfl, hm⟩, fun _ => rfl⟩
    · rw [if_neg hm] at hstep
      by_cases ha : s.abort_response.isSome
      · rw [if_pos ha] at hstep
        cases hstep
      · rw [if_neg ha] at hstep
        rw [Except.ok.injEq, Prod.mk.injEq] at hstep
        obtain ⟨h2, h3⟩ := hstep
        subst h3
        refine ⟨?_, fun hnone => Or.inl hnone, fun hsome => absurd hsome ha⟩
        intro _ hb
        rcases hb r rfl with hnone | hsome
        · exact Or.inl hnone
        · exact absurd hsome hm
  | control q =>
    have hstep' : s.abortFromControl q = .ok (res, s') := hstep
    unfold ICCDSlot.abortFromControl at hstep'
    match har : s.abort_response with
    | some r =>
      rw [har] at hstep'
      simp only [Response.tupleBSeq] at hstep'
      cases hstep'
    | none =>
      rw [har] at hstep'
      by_cases hc : s.abort_control_sequence.isSome
      · rw [if_pos hc] at hstep'
        cases hstep'
      · rw [if_neg hc] at hstep'
        rw [Except.ok.injEq, Prod.mk.injEq] at hstep'
        obtain ⟨h2, h3⟩ := hstep'
        subst h3
        exact ⟨fun _ _ => Or.inr rfl, fun hnone => by simp at hnone, fun _ => rfl⟩

/-- C4 amended, witness: a control abort with sequence 5 on a fresh slot. -/
theorem C4_latch_amended_witness :
    AbortStepSpec ICCDSlot.fresh (.control 5)
      { ICCDSlot.fresh with abort_control_sequence := some 5 } :=
  C4_latch_amended ICCDSlot.fresh (.control 5) .marker
    { ICCDSlot.fresh with abort_control_sequence := some 5 } rfl

/-- C5 counterexample.  A 10-byte bulk-OUT buffer whose first byte (0x00) is
not a registered request message type makes request processing raise
`ValueError` (from `guess_subtype_from_buffer`), instead of producing an
`ERROR_CMD_NOT_SUPPORTED` response. -/
theorem C5_counterexample_unknown_type_raises :
    onOUTComplete (initialState 1) [0, 0, 0, 0, 0, 0, 1, 0, 0, 0] =
      .error .valueError := rfl

/-- C5 amended.  A buffer whose first byte is not a registered request type
always raises `ValueError` out of the completion handler and produces no
response; a parsed request type the dispatcher does not support (here
`ESCAPE`, with a card present) does produce a single response with
`bmCommandStatus = Failed` and `bError = ERROR_CMD_NOT_SUPPORTED`. -/
theorem C5_malformed_input_amended :
    (∀ (st : ICCDFunctionState) (b0 : Nat) (rest : List Nat),
        registeredRequestTypes.contains b0 = false →
        onOUTComplete st (b0 :: rest) = .error .valueError) ∧
    respCount (onICCDRequest stWithCard escapeHead []) = some 1 ∧
    respFieldAt (onICCDRequest stWithCard escapeHead []) 0 "bmCommandStatus" =
      some COMMAND_STATUS_FAILED ∧
    respFieldAt (onICCDRequest stWithCard escapeHead []) 0 "bError" =
      some ERROR_CMD_NOT_SUPPORTED := by
  refine ⟨?_, rfl, rfl, rfl⟩
  intro st b0 rest h
  simp only [onOUTComplete, guess_subtype_from_buffer, h, Bool.false_eq_true,
    if_false, ite_false]
  rfl

/-- C5 amended, witness: first byte 0x00 on a fresh 1-slot function. -/
theorem C5_malformed_input_amended_witness :
    registeredRequestTypes.contains 0 = false ∧
    onOUTComplete (initialState 1) (0 :: List.replicate 9 0) = .error .valueError :=
  ⟨by decide, C5_malformed_input_amended.1 (initialState 1) 0 (List.replicate 9 0)
    (by decide)⟩

/-- C6 counterexample.  A `POWER_OFF` with `dwLength = 1` addressed to an
Active slot with a card is not rejected: the dispatcher performs no length
check for `POWER_OFF`, powers the slot off (status becomes Inactive) and
returns a success response (`bmCommandStatus = OK`, `bError = 0`), refuting
both the `ERROR_BAD_LENGTH` response and the slot-not-powered-off part of the
claim. -/
theorem C6_counterexample_power_off_length :
    respCount (onICCDRequest stActive powerOffHead1 [9]) = some 1 ∧
    respFieldAt (onICCDRequest stActive powerOffHead1 [9]) 0 "bmCommandStatus" =
      some COMMAND_STATUS_OK ∧
    respFieldAt (onICCDRequest stActive powerOffHead1 [9]) 0 "bError" = some 0 ∧
    slotStatusAfter (onICCDRequest stActive powerOffHead1 [9]) 0 =
      some ICC_STATUS_INACTIVE :=
  ⟨rfl, rfl, rfl, rfl⟩

/-- C6 amended.  For `ABORT` and `GET_SLOT_STATUS` addressed to a valid slot,
`dwLength ≠ 0` yields exactly one `Failed`/`ERROR_BAD_LENGTH` slot-status
response and no state change; `POWER_OFF` performs no length check: whatever
`dwLength`, on every valid slot — with or without a card, under the data-model
invariant that an Active slot has a card bound — the slot is powered off and a
success response is returned. -/
theorem C6_always_allowed_length_amended :
    (∀ (st : ICCDFunctionState) (head : ICCDRequestHead) (body : List Nat)
        (slot : ICCDSlot), st.slot_list[head.bSlot]? = some slot →
      head.dwLength ≠ 0 →
      (head.bMessageType = MESSAGE_TYPE_ABORT ∨
        head.bMessageType = MESSAGE_TYPE_GET_SLOT_STATUS) →
      BadLengthRejectSpec st head body) ∧
    (∀ (st : ICCDFunctionState) (head : ICCDRequestHead) (body : List Nat)
        (slot : ICCDSlot), st.slot_list[head.bSlot]? = some slot →
      head.bMessageType = MESSAGE_TYPE_POWER_OFF →
      (slot.status = ICC_STATUS_ACTIVE → slot.card ≠ none) →
      PowerOffDispatchSpec st head body slot) :=
  ⟨abort_gss_bad_length, power_off_no_length_check⟩

/-- C6 amended, witness: an `ABORT` with `dwLength = 1` on the one-slot
function with a card, and a `POWER_OFF` with `dwLength = 1` on a fresh
card-less slot. -/
theorem C6_always_allowed_length_amended_witness :
    BadLengthRejectSpec stWithCard abortBadLenHead [] ∧
    PowerOffDispatchSpec (initialState 1) powerOffHead1 [9] ICCDSlot.fresh :=
  ⟨C6_always_allowed_length_amended.1 stWithCard abortBadLenHead [] slotWithCard rfl
      (by decide) (Or.inl rfl),
   C6_always_allowed_length_amended.2 (initialState 1) powerOffHead1 [9] ICCDSlot.fresh
      rfl rfl (fun h => absurd h (by decide))⟩

/-- C7 counterexample.  On a response body whose size is exactly
`DATA_MAX_LENGTH` (65538) the fragmenter emits 2 data-block messages — a full
`BEGIN` chunk followed by an empty `END` chunk — while the claimed count
`max(1, ceil(N / 65538))` is 1: the loop only stops on a chunk strictly
shorter than `DATA_MAX_LENGTH`. -/
theorem C7_counterexample_exact_multiple :
    ∃ rs : List Response,
      fragmentLoop (xfrChunkResponse xfrBeginHead 0) true
          (List.replicate DATA_MAX_LENGTH 0) = .ok rs ∧
      rs.length = 2 ∧
      max 1 ((DATA_MAX_LENGTH + DATA_MAX_LENGTH - 1) / DATA_MAX_LENGTH) = 1 := by
  refine ⟨_, fragmentLoop_eq_map _ (xfrDataBlockResp xfrBeginHead 0)
    (fun a b c => xfrChunkResponse_ok xfrBeginHead 0 rfl a b c) true _, ?_, by decide⟩
  rw [List.length_map, fragmentChunks_length, List.length_replicate]
  decide

/-- C7 amended.  For every card response body of size N, the fragmenter
emits exactly `N / 65538 + 1` data-block responses (which equals
`max(1, ceil(N / 65538))` except when N is a positive multiple of 65538,
where one extra empty `END` message is emitted); their bodies concatenate
back to the body, with chain parameter `BEGIN_AND_END` for a single message
and otherwise `BEGIN`, zero or more `INTERMEDIATE`, then `END`. -/
theorem C7_fragmenter_amended (slotStatus : Nat) (head : ICCDRequestHead)
    (body : List Nat) (h : head.bMessageType = MESSAGE_TYPE_XFR_BLOCK) :
    FragmenterSpec slotStatus head body := by
  unfold FragmenterSpec
  refine ⟨_, fragmentLoop_eq_map _ (xfrDataBlockResp head slotStatus)
    (fun a b c => xfrChunkResponse_ok head slotStatus h a b c) true body, ?_, ?_, ?_, ?_⟩
  · rw [List.length_map, fragmentChunks_length]
  · rw [List.map_map]
    have he : ((fun (r : Response) => r.2) ∘
        fun (x : Bool × Bool × List Nat) =>
          xfrDataBlockResp head slotStatus x.1 x.2.1 x.2.2) =
        fun x => x.2.2 := by
      funext x; rfl
    rw [he, fragmentChunks_flatten]
  · intro r hr
    rw [List.mem_map] at hr
    obtain ⟨x, _, rfl⟩ := hr
    rfl
  · rw [List.map_map]
    have he : ((fun (r : Response) => r.1.get "bChainParameter") ∘
        fun (x : Bool × Bool × List Nat) =>
          xfrDataBlockResp head slotStatus x.1 x.2.1 x.2.2) =
        fun x => START_STOP_TO_CHAIN x.1 x.2.1 := by
      funext x; rfl
    rw [he, fragmentChunks_chains]
    simp [START_STOP_TO_CHAIN]

/-- C7 amended, witness: a 3-byte body on an `XFR_BLOCK` request. -/
theorem C7_fragmenter_amended_witness : FragmenterSpec 0 xfrBeginHead [1, 2, 3] :=
  C7_fragmenter_amended 0 xfrBeginHead [1, 2, 3] rfl

/-- C8.  The claim that the APDU reassembly buffer is empty whenever the
dispatcher invokes `powerOn` is violated by the host request sequence
`XFR_BLOCK(wLevelParameter = BEGIN)` followed by `POWER_ON` on a card-present
slot: the first request stores a chunk in the buffer without completing the
transfer, and the second reaches `powerOn`, whose
`assert not self._data` then fails (AssertionError). -/
theorem C8_power_on_assertion_violated :
    slotDataAfter (onICCDRequest stWithCard xfrBeginHead []) 0 = some [[]] ∧
    runRequests stWithCard [(xfrBeginHead, []), (powerOnHead, [])] =
      .error .assertionError :=
  ⟨rfl, rfl⟩

/-- C9.  End-to-end spec scenario 1: the literal `GET_SLOT_STATUS` request
`65 00 00 00 00 00 07 00 00 00` processed while slot 0 of a fresh 1-slot
function has no card produces exactly one response whose wire bytes are
`81 00 00 00 00 00 07 02 00 00` (`dwLength = 0`, `bSlot = 0`, `bSeq = 7`,
`bmICCStatus = NotPresent` in bits 0-1, `bmCommandStatus = OK` in bits 6-7,
`bError = 0`, `bClockStatus = Running`). -/
theorem C9_get_slot_status_scenario :
    emittedSlotStatusBytes (onOUTComplete (initialState 1) c9RequestBytes) =
      some c9ResponseBytes := rfl

/-- C10.  On every slot state in which an Active slot has a card bound (the
data-model invariant; all states reachable through insert, remove, powerOn
and powerOff satisfy it, including every state with no card bound),
`powerOff` never raises, leaves the slot non-Active with an empty APDU
buffer, is idempotent, and on a non-Active slot changes nothing except
clearing the buffer. -/
theorem C10_power_off_safe (s : ICCDSlot)
    (hwf : s.status = ICC_STATUS_ACTIVE → s.card ≠ none) : PowerOffSpec s := by
  unfold PowerOffSpec
  by_cases h : s.status = ICC_STATUS_ACTIVE
  · match hc : s.card with
    | none => exact absurd hc (hwf h)
    | some c =>
      refine ⟨{ s with status := ICC_STATUS_INACTIVE, data := [] }, ?_,
        (by decide : ICC_STATUS_INACTIVE ≠ ICC_STATUS_ACTIVE), rfl, rfl,
        fun hn => absurd h hn⟩
      unfold ICCDSlot.powerOff
      rw [if_pos h, hc]
  · refine ⟨{ s with data := [] }, ?_, by simpa using h, rfl, ?_, fun _ => rfl⟩
    · unfold ICCDSlot.powerOff
      rw [if_neg h]
    · unfold ICCDSlot.powerOff
      rw [if_neg h]

/-- C10, witness: a fresh slot (no card bound). -/
theorem C10_power_off_safe_witness : PowerOffSpec ICCDSlot.fresh :=
  C10_power_off_safe ICCDSlot.fresh
    (fun h => absurd h (by decide))

end FCcid
